import Mathlib

/-!
Verification of the SmartFlow scheduling front-end against its
natural-language specification.

The definitions below are shallow embeddings of the TypeScript source:
pure computations become Lean functions, DOM/HTTP side effects are made
explicit as returned values (the request that would be sent, the kind of
toast that would be shown, the component state that would be stored).
Machine numbers are modelled as `Int`/`Nat`/`Rat`; JavaScript's special
float values (`NaN`, `Infinity`) are modelled explicitly where a claim
depends on them.  The backend scheduling engine (FastAPI, `schedule.py`)
is not part of the source tree; the order prioritizer and shift clock it
implements are modelled from the specification text and marked as such.
-/

namespace SmartFlow

/-- Kind of toast notification a handler fires (sonner `toast.success`,
`toast.info`, `toast.error`). -/
inductive ToastKind where
  | success
  | info
  | error
deriving DecidableEq, Repr

/-! ### Lifecycle manager (SchedulePage in `src/unnamed/part_002`) -/

/-- From `handleStatusChange` (part_002): the requested new status is
`completed` when the entry is currently `in_progress`, and `in_progress`
otherwise (`currentStatus === 'in_progress' ? 'completed' : 'in_progress'`).
The component's `status` field is `string | undefined`, modelled as
`Option String`. -/
def requestedStatus (currentStatus : Option String) : String :=
  if currentStatus = some "in_progress" then "completed" else "in_progress"

/-- From the status action buttons (part_002): an `in_progress` row renders
a stop button wired to `handleStatusChange`, a `completed` row renders a
disabled label (no handler), and any other row renders a start button wired
to `handleStatusChange`.  The result is the status-change request the
operator can issue from a row in the given state, `none` when no
status-change action is available. -/
def statusAction (status : Option String) : Option String :=
  if status = some "in_progress" then some (requestedStatus status)
  else if status = some "completed" then none
  else some (requestedStatus status)

/-! ### Urgent-order intake (OrderUploadPage in `SchedulePage.tsx`, orderAPI in `api.ts`) -/

/-- The urgent-order dialog form state (`urgentOrder` in OrderUploadPage). -/
structure UrgentOrderForm where
  order_number : String
  product_code : String
  quantity : Int
  due_date : String
deriving DecidableEq, Repr

/-- The JSON body `orderAPI.urgent` posts to `/api/orders/urgent`. -/
structure UrgentPayload where
  order_number : String
  product_code : String
  quantity : Int
  due_date : String
  is_urgent : Bool
  priority : Int
deriving DecidableEq, Repr

/-- From `orderAPI.urgent` (api.ts): the caller-supplied fields are spread
into the body and then `is_urgent: true` and `priority: 1` are written on
top, so the posted payload always carries that flag and tier. -/
def orderAPI_urgent (data : UrgentOrderForm) : UrgentPayload :=
  { order_number := data.order_number
    product_code := data.product_code
    quantity := data.quantity
    due_date := data.due_date
    is_urgent := true
    priority := 1 }

/-- From `handleAddUrgentOrder` (OrderUploadPage): if the order number or
product code is falsy (empty string) or the quantity is not positive, an
error toast is shown and no request is sent; otherwise the form is posted
via `orderAPI.urgent` and a success toast is shown.  The first component is
the request sent to the server, if any. -/
def handleAddUrgentOrder (form : UrgentOrderForm) : Option UrgentPayload × ToastKind :=
  if form.order_number = "" ∨ form.product_code = "" ∨ form.quantity ≤ 0 then
    (none, ToastKind.error)
  else
    (some (orderAPI_urgent form), ToastKind.success)

/-! ### Order backlog shown for scheduling (OrderUploadPage `fetchOrders`) -/

/-- A backend order record (`BackendOrder` in api.ts), restricted to the
fields the pages read. -/
structure BackendOrder where
  id : Int
  order_number : String
  product_code : String
  quantity : Int
  due_date : String
  priority : Int
  status : String
  is_urgent : Bool
deriving DecidableEq, Repr

/-- From `fetchOrders` (OrderUploadPage): the list fetched from
`/api/orders/list` is filtered to records whose status is `pending` or
`scheduled` before being displayed as the waiting backlog. -/
def fetchOrdersFiltered (orders : List BackendOrder) : List BackendOrder :=
  orders.filter (fun o => o.status == "pending" || o.status == "scheduled")

/-! ### Equipment creation (EquipmentPage in `ProductManagementPage.tsx`) -/

/-- The add-equipment dialog form state (`newEquipment`). -/
structure NewEquipmentForm where
  machine_id : String
  tonnage : Int
  capacity_per_hour : Int
  shift_start : String
  shift_end : String
deriving DecidableEq, Repr

/-- The initial `newEquipment` state (EquipmentPage): empty machine id,
zero tonnage and capacity, default shift `08:00`..`18:00`. -/
def newEquipmentInit : NewEquipmentForm :=
  { machine_id := ""
    tonnage := 0
    capacity_per_hour := 0
    shift_start := "08:00"
    shift_end := "18:00" }

/-- From `handleAddEquipment` (EquipmentPage): the only validation is that
`machine_id` is non-empty (truthy) and `tonnage > 0`; on failure an error
toast is shown and nothing is sent, otherwise the form is posted to
`equipmentAPI.create` unchanged.  The first component is the record sent to
the server, if any. -/
def handleAddEquipment (form : NewEquipmentForm) : Option NewEquipmentForm × ToastKind :=
  if form.machine_id = "" ∨ form.tonnage ≤ 0 then
    (none, ToastKind.error)
  else
    (some form, ToastKind.success)

/-! ### Weekly summary display (`fetchWeeklySummary` in part_002) -/

/-- One row of the weekly summary returned by
`/api/schedule/weekly-summary`. -/
structure WeeklyDay where
  date : String
  day_of_week : String
  scheduled_quantity : Int
  equipment_count : Int
  utilization : Rat
deriving DecidableEq, Repr

/-- From `fetchWeeklySummary` (part_002, lines 99-116): the fetched list is
stored as `list.slice(0, Math.min(list.length, 3))` when it has fewer than
7 entries, and as `list.slice(0, 7)` otherwise.  The stored list is what
the weekly table renders, row for row. -/
def displayedWeeklySummary (list : List WeeklyDay) : List WeeklyDay :=
  if list.length < 7 then list.take (min list.length 3) else list.take 7

/-- Helper for building concrete weekly rows in counterexamples. -/
def wday (d : String) (q : Int) : WeeklyDay :=
  { date := d, day_of_week := "", scheduled_quantity := q, equipment_count := 1, utilization := 0 }

/-! ### Schedule result state and metrics (`SchedulePage.tsx`, part_002) -/

/-- A schedule entry as the schedule pages receive it (`ScheduleItem`).
The `status` field is optional in the component interface. -/
structure ScheduleItem where
  id : Int
  order_number : String
  product_code : String
  machine_id : String
  start_time : String
  end_time : String
  duration_minutes : Int
  is_on_time : Bool
  status : Option String
deriving DecidableEq, Repr

/-- The metrics object of a schedule result (`ScheduleMetrics`).
Fields are JavaScript numbers, modelled as exact rationals. -/
structure ScheduleMetrics where
  on_time_rate : Rat
  utilization : Rat
  total_orders : Rat
  on_time_orders : Rat
deriving DecidableEq, Repr

/-- The all-zero metrics object used as fallback
(`{ on_time_rate: 0, utilization: 0, total_orders: 0, on_time_orders: 0 }`). -/
def zeroMetrics : ScheduleMetrics :=
  { on_time_rate := 0, utilization := 0, total_orders := 0, on_time_orders := 0 }

/-- A `/api/schedule/result` response body: the `schedule` list and the
`metrics` object, either of which may be absent. -/
structure ScheduleResponse where
  schedule : Option (List ScheduleItem)
  metrics : Option ScheduleMetrics
deriving DecidableEq, Repr

/-- The component state stored by `setScheduleData` (`ScheduleData`); the
metrics field keeps whatever the response carried (`SchedulePage.tsx` line
`metrics: data.metrics` stores it unchecked). -/
structure ScheduleData where
  schedules : List ScheduleItem
  metrics : Option ScheduleMetrics
deriving DecidableEq, Repr

/-- From `fetchSchedule` (SchedulePage.tsx / part_002): when the response
has no `schedule` list or an empty one, the state is cleared and an info
toast fires (`toast.info`, not an error); otherwise the list and metrics
are stored and a success toast fires. -/
def fetchScheduleState (resp : ScheduleResponse) : Option ScheduleData × ToastKind :=
  match resp.schedule with
  | none => (none, ToastKind.info)
  | some [] => (none, ToastKind.info)
  | some items => (some { schedules := items, metrics := resp.metrics }, ToastKind.success)

/-- From the metrics fallback (SchedulePage.tsx lines 63-73, part_002 lines
541-547): the metrics the page renders are `scheduleData?.metrics ||
{ all zeros }`. -/
def displayedMetrics (sd : Option ScheduleData) : ScheduleMetrics :=
  match sd with
  | none => zeroMetrics
  | some d => d.metrics.getD zeroMetrics

/-! ### JavaScript number semantics for the late-rate KPI (`SchedulePage.tsx`) -/

/-- A JavaScript number outcome: an exact finite value or one of the
special float values produced by division by zero. -/
inductive JSNum where
  | nan
  | posInf
  | negInf
  | num (q : Rat)
deriving DecidableEq, Repr

/-- JavaScript division of finite numbers: `0/0` is `NaN`, `a/0` for
nonzero `a` is a signed infinity, otherwise exact division. -/
def jsDiv (a b : Rat) : JSNum :=
  if b = 0 then
    if a = 0 then JSNum.nan
    else if 0 < a then JSNum.posInf
    else JSNum.negInf
  else JSNum.num (a / b)

/-- JavaScript multiplication of a possibly non-finite value by a finite
constant. -/
def jsMul (x : JSNum) (c : Rat) : JSNum :=
  match x with
  | JSNum.nan => JSNum.nan
  | JSNum.posInf => if 0 < c then JSNum.posInf else if c < 0 then JSNum.negInf else JSNum.nan
  | JSNum.negInf => if 0 < c then JSNum.negInf else if c < 0 then JSNum.posInf else JSNum.nan
  | JSNum.num q => JSNum.num (q * c)

/-- From the late-rate KPI card (SchedulePage.tsx lines 276-291): the
rendered value is
`(metrics.total_orders - metrics.on_time_orders) / metrics.total_orders * 100`
with no guard on the divisor. -/
def lateRatePct (m : ScheduleMetrics) : JSNum :=
  jsMul (jsDiv (m.total_orders - m.on_time_orders) m.total_orders) 100

/-! ### Gantt conversion (`convertScheduleForGantt` in api.ts) -/

/-- The clock reading `new Date(backend.start_time)` yields via
`getHours()` and `getMinutes()`. -/
structure ParsedTime where
  hours : Nat
  minutes : Nat
deriving DecidableEq, Repr

/-- A backend schedule row (`BackendSchedule` in api.ts), with the start
time already parsed to the clock fields the conversion reads. -/
structure BackendSchedule where
  order_number : String
  product_code : String
  machine_id : String
  start_time : ParsedTime
  duration_minutes : Nat
  is_on_time : Bool
deriving DecidableEq, Repr

/-- A Gantt task as built by `convertScheduleForGantt`.  The source field
named `end` is called `stop` here because `end` is a Lean keyword. -/
structure GanttTask where
  id : String
  machine : String
  orderNumber : String
  productCode : String
  start : Int
  stop : Int
  duration : Int
  color : String
  isOnTime : Bool
deriving DecidableEq, Repr

/-- JavaScript `Math.round`: round half towards positive infinity,
`Math.round(x) = Math.floor(x + 0.5)`. -/
def jsRound (q : Rat) : Int :=
  Int.floor (q + 1 / 2)

/-- `startHours` in the conversion: `getHours() + getMinutes() / 60`. -/
def startHoursQ (b : BackendSchedule) : Rat :=
  (b.start_time.hours : Rat) + (b.start_time.minutes : Rat) / 60

/-- `durationHours` in the conversion: `duration_minutes / 60`. -/
def durationHoursQ (b : BackendSchedule) : Rat :=
  (b.duration_minutes : Rat) / 60

/-- The `colors` palette of `convertScheduleForGantt`. -/
def ganttColors : List String :=
  ["#3B82F6", "#10B981", "#F59E0B", "#EF4444", "#8B5CF6", "#EC4899"]

/-- From `convertScheduleForGantt` (api.ts lines 562-583): `start`, `end`
and `duration` are `Math.round(startHours)`,
`Math.round(startHours + durationHours)` and `Math.round(durationHours)`
respectively. -/
def convertScheduleForGantt (b : BackendSchedule) (index : Nat) : GanttTask :=
  { id := "task-" ++ toString index
    machine := b.machine_id
    orderNumber := b.order_number
    productCode := b.product_code
    start := jsRound (startHoursQ b)
    stop := jsRound (startHoursQ b + durationHoursQ b)
    duration := jsRound (durationHoursQ b)
    color := ganttColors.getD (index % ganttColors.length) ""
    isOnTime := b.is_on_time }

/-! ### Order prioritizer and greedy assigner (modelled from the spec)

The scheduling engine itself lives in the FastAPI backend
(`backend/routers/schedule.py` per the README), which is not part of the
source tree; only its callers and the README's algorithm sketch are.  The
definitions in this section are therefore modelled from the specification
text (§3, §4.2, §4.3, §4.4). -/

/-- Modelled from the spec: a pending order record (§3, §6).  The backend
order model is missing from the source tree.  Order number and due date
are modelled as naturals so that "ascending" is the numeric order;
priority is the spec's small integer tier, lower more urgent. -/
structure PendingOrder where
  orderNumber : Nat
  priority : Nat
  dueDate : Nat
  isUrgent : Bool
  quantity : Nat
deriving DecidableEq, Repr

/-- Modelled from the spec: the urgent flag sorts "true first" (§4.3), so
urgent orders get rank 0 and the rest rank 1. -/
def urgencyRank (o : PendingOrder) : Nat :=
  if o.isUrgent then 0 else 1

/-- Modelled from the spec: the §4.3 sort key
(urgent flag, priority tier, due date, order number), compared
lexicographically with every component ascending. -/
def sortKey (o : PendingOrder) : Nat × Nat × Nat × Nat :=
  (urgencyRank o, o.priority, o.dueDate, o.orderNumber)

/-- Modelled from the spec: the prioritizer's non-strict comparison, the
lexicographic order on `sortKey` (§4.3). -/
def priorityLE (a b : PendingOrder) : Bool :=
  if urgencyRank a = urgencyRank b then
    if a.priority = b.priority then
      if a.dueDate = b.dueDate then
        decide (a.orderNumber ≤ b.orderNumber)
      else decide (a.dueDate < b.dueDate)
    else decide (a.priority < b.priority)
  else decide (urgencyRank a < urgencyRank b)

/-- The prioritizer comparison as a relation, for the sorting lemmas. -/
def priRel (a b : PendingOrder) : Prop :=
  priorityLE a b = true

instance : DecidableRel priRel := fun a b => by
  unfold priRel
  infer_instance

/-- Modelled from the spec: the prioritizer produces the pending orders
sorted by the §4.3 key; it is a stable sort, modelled as insertion sort. -/
def prioritizeOrders (orders : List PendingOrder) : List PendingOrder :=
  orders.insertionSort priRel

/-- Modelled from the spec: a per-machine shift clock (§4.2).  The shift
window is a time-of-day interval in minutes from midnight with
`shiftStart < shiftEnd` (§3), and the cursor is the earliest free instant
of the machine, in absolute minutes. -/
structure MachineClock where
  shiftStart : Nat
  shiftEnd : Nat
  cursor : Nat
deriving DecidableEq, Repr

/-- Minutes in a calendar day. -/
def minutesPerDay : Nat := 1440

/-- Modelled from the spec (§4.2): if the cursor falls before today's shift
start it advances to shift start; if at or after today's shift end it
advances to the next day's shift start; otherwise work starts at the
cursor. -/
def alignCursor (m : MachineClock) : Nat :=
  if m.cursor % minutesPerDay < m.shiftStart then
    m.cursor / minutesPerDay * minutesPerDay + m.shiftStart
  else if m.shiftEnd ≤ m.cursor % minutesPerDay then
    (m.cursor / minutesPerDay + 1) * minutesPerDay + m.shiftStart
  else
    m.cursor

/-- Modelled from the spec (§4.2): the end instant of a reservation whose
work starts at the aligned cursor.  Work that does not fit before today's
shift end is carried whole into following shift windows: after the first
(possibly partial) window, each further day contributes a full
`shiftEnd - shiftStart` window, and the closed form below places the
remainder in the first window where it fits. -/
def reserveEnd (m : MachineClock) (dur : Nat) : Nat :=
  let s := alignCursor m
  let avail := m.shiftEnd - s % minutesPerDay
  if dur ≤ avail then s + dur
  else
    let rem := dur - avail
    let len := m.shiftEnd - m.shiftStart
    let k := (rem - 1) / len
    (s / minutesPerDay + 1 + k) * minutesPerDay + m.shiftStart + (rem - k * len)

/-- Modelled from the spec (§4.2): `reserve(duration) → (start, end)`
returns the slot and advances the cursor to `end`. -/
def reserve (m : MachineClock) (dur : Nat) : (Nat × Nat) × MachineClock :=
  let s := alignCursor m
  let e := reserveEnd m dur
  ((s, e), { m with cursor := e })

/-- Modelled from the spec (§4.4 step 3): an order's duration on a machine
with the given units-per-hour rate is `ceil(quantity / rate)` hours, in
minutes. -/
def durMinutes (quantity rate : Nat) : Nat :=
  60 * ((quantity + rate - 1) / rate)

/-- Modelled from the spec (§4.4): the greedy assigner restricted to the
claim's scenario of a single machine for which every listed order is
eligible.  Orders are consumed in the given (already prioritized) sequence;
each reserves its duration on the machine's shift clock and the entry
`(order, start, end)` is emitted. -/
def runGreedy (rate : Nat) (m : MachineClock) : List PendingOrder → List (PendingOrder × Nat × Nat)
  | [] => []
  | o :: rest =>
    let res := reserve m (durMinutes o.quantity rate)
    (o, res.1) :: runGreedy rate res.2 rest

/-! ### Concrete sample inputs used by counterexamples and witnesses -/

/-- An order record whose status is `scheduled`, not `pending`. -/
def scheduledOrder : BackendOrder :=
  { id := 2, order_number := "ORD-2", product_code := "P-1", quantity := 10
    due_date := "2025-01-01", priority := 3, status := "scheduled", is_urgent := false }

/-- An equipment form with positive tonnage but zero capacity and a shift
window whose end precedes its start. -/
def invalidEquipment : NewEquipmentForm :=
  { machine_id := "M-9", tonnage := 150, capacity_per_hour := 0
    shift_start := "18:00", shift_end := "08:00" }

/-- A four-day weekly summary as the server may return it; day 4 has zero
scheduled quantity. -/
def sampleWeek4 : List WeeklyDay :=
  [wday "2025-01-01" 5, wday "2025-01-02" 3, wday "2025-01-03" 7, wday "2025-01-04" 0]

/-- A two-day weekly summary. -/
def sampleWeek2 : List WeeklyDay :=
  [wday "2025-02-01" 5, wday "2025-02-02" 0]

/-- A backend schedule row starting at 08:15 with a 15-minute duration. -/
def ganttSample : BackendSchedule :=
  { order_number := "ORD-1", product_code := "P-1", machine_id := "M-1"
    start_time := { hours := 8, minutes := 15 }, duration_minutes := 15, is_on_time := true }

/-- A backend schedule row starting exactly on the hour. -/
def ganttSampleOnHour : BackendSchedule :=
  { order_number := "ORD-3", product_code := "P-2", machine_id := "M-2"
    start_time := { hours := 9, minutes := 0 }, duration_minutes := 90, is_on_time := false }

/-- A well-formed urgent-order form. -/
def validUrgentForm : UrgentOrderForm :=
  { order_number := "URG-001", product_code := "P-1", quantity := 10, due_date := "2025-01-02" }

/-- A schedule response carrying an empty schedule list and no metrics. -/
def emptyScheduleResponse : ScheduleResponse :=
  { schedule := some [], metrics := none }

/-- A concrete schedule entry. -/
def sampleItem : ScheduleItem :=
  { id := 1, order_number := "ORD-1", product_code := "P-1", machine_id := "M-1"
    start_time := "2025-01-01T08:00:00", end_time := "2025-01-01T10:00:00"
    duration_minutes := 120, is_on_time := true, status := none }

/-- A response with one schedule entry and all-zero metrics. -/
def oneItemZeroResponse : ScheduleResponse :=
  { schedule := some [sampleItem], metrics := some zeroMetrics }

/-- An urgent order, order number 2. -/
def urgentOrderA : PendingOrder :=
  { orderNumber := 2, priority := 5, dueDate := 10, isUrgent := true, quantity := 100 }

/-- A non-urgent order with a better tier and earlier due date, order
number 1. -/
def normalOrderB : PendingOrder :=
  { orderNumber := 1, priority := 1, dueDate := 5, isUrgent := false, quantity := 100 }

/-- A machine clock with shift 08:00-18:00 and cursor at midnight. -/
def clock0 : MachineClock :=
  { shiftStart := 480, shiftEnd := 1080, cursor := 0 }

/-! ### Helper lemmas -/

theorem jsRound_le (q : Rat) : (jsRound q : Rat) ≤ q + 1 / 2 :=
  Int.floor_le _

theorem lt_jsRound (q : Rat) : q - 1 / 2 < (jsRound q : Rat) := by
  have h := Int.lt_floor_add_one (q + 1 / 2)
  unfold jsRound
  push_cast at h ⊢
  linarith

theorem jsRound_intCast_add (n : Int) (q : Rat) : jsRound ((n : Rat) + q) = n + jsRound q := by
  unfold jsRound
  rw [add_assoc, Int.floor_int_add]

theorem jsRound_intCast (n : Int) : jsRound (n : Rat) = n := by
  have h : jsRound ((n : Rat) + 0) = n + jsRound 0 := jsRound_intCast_add n 0
  have h0 : jsRound (0 : Rat) = 0 := by norm_num [jsRound]
  rw [h0] at h
  simpa using h

theorem priorityLE_total (a b : PendingOrder) :
    priorityLE a b = true ∨ priorityLE b a = true := by
  unfold priorityLE
  split_ifs <;> simp_all
  omega

theorem priorityLE_trans (a b c : PendingOrder) :
    priorityLE a b = true → priorityLE b c = true → priorityLE a c = true := by
  unfold priorityLE
  split_ifs <;> simp_all <;> omega

theorem priorityLE_antisymm (a b : PendingOrder) :
    priorityLE a b = true → priorityLE b a = true → sortKey a = sortKey b := by
  unfold priorityLE sortKey
  split_ifs <;> simp_all [Prod.ext_iff] <;> omega

theorem priorityLE_false_of_urgent {a b : PendingOrder}
    (ha : a.isUrgent = true) (hb : b.isUrgent = false) : priorityLE b a = false := by
  unfold priorityLE urgencyRank
  simp [ha, hb]

theorem prioritizeOrders_pairwise (l : List PendingOrder) :
    (prioritizeOrders l).Pairwise priRel := by
  haveI : IsTotal PendingOrder priRel := ⟨fun a b => priorityLE_total a b⟩
  haveI : IsTrans PendingOrder priRel := ⟨fun a b c => priorityLE_trans a b c⟩
  exact List.sorted_insertionSort priRel l

theorem cursor_le_alignCursor (m : MachineClock) : m.cursor ≤ alignCursor m := by
  unfold alignCursor minutesPerDay
  split_ifs <;> omega

theorem le_carry_day (s k ss x : Nat) :
    s ≤ (s / minutesPerDay + 1 + k) * minutesPerDay + ss + x := by
  unfold minutesPerDay
  omega

theorem alignCursor_le_reserveEnd (m : MachineClock) (dur : Nat) :
    alignCursor m ≤ reserveEnd m dur := by
  unfold reserveEnd
  dsimp only
  split_ifs with h
  · omega
  · exact le_carry_day (alignCursor m) _ m.shiftStart _

theorem reserve_spec (m : MachineClock) (dur : Nat) :
    (reserve m dur).1.1 = alignCursor m ∧
    (reserve m dur).2.cursor = reserveEnd m dur ∧
    (reserve m dur).2.shiftStart = m.shiftStart ∧
    (reserve m dur).2.shiftEnd = m.shiftEnd ∧
    m.cursor ≤ (reserve m dur).2.cursor ∧
    (reserve m dur).1.1 ≤ (reserve m dur).2.cursor := by
  refine ⟨rfl, rfl, rfl, rfl, ?_, ?_⟩
  · exact le_trans (cursor_le_alignCursor m) (alignCursor_le_reserveEnd m dur)
  · exact alignCursor_le_reserveEnd m dur

theorem runGreedy_start_ge_cursor :
    ∀ (l : List PendingOrder) (rate : Nat) (m : MachineClock),
      ∀ p ∈ runGreedy rate m l, m.cursor ≤ p.2.1 := by
  intro l
  induction l with
  | nil => intro rate m p hp; simp [runGreedy] at hp
  | cons o rest ih =>
    intro rate m p hp
    simp only [runGreedy, List.mem_cons] at hp
    rcases hp with rfl | hp
    · exact cursor_le_alignCursor m
    · exact le_trans (reserve_spec m (durMinutes o.quantity rate)).2.2.2.2.1
        (ih rate _ p hp)

theorem runGreedy_starts_pairwise :
    ∀ (l : List PendingOrder) (rate : Nat) (m : MachineClock),
      (runGreedy rate m l).Pairwise (fun p q => p.2.1 ≤ q.2.1) := by
  intro l
  induction l with
  | nil => intro rate m; simp [runGreedy]
  | cons o rest ih =>
    intro rate m
    simp only [runGreedy]
    refine List.Pairwise.cons ?_ (ih rate _)
    intro q hq
    have h1 := runGreedy_start_ge_cursor rest rate _ q hq
    have h2 := (reserve_spec m (durMinutes o.quantity rate)).2.2.2.2.2
    have h3 := (reserve_spec m (durMinutes o.quantity rate)).2.1
    exact le_trans (le_trans h2 (le_of_eq h3.symm)) h1

theorem runGreedy_map_fst :
    ∀ (l : List PendingOrder) (rate : Nat) (m : MachineClock),
      (runGreedy rate m l).map Prod.fst = l := by
  intro l
  induction l with
  | nil => intro rate m; simp [runGreedy]
  | cons o rest ih => intro rate m; simp [runGreedy, ih]

/-! ### Claim theorems -/

/-- C1: the Order Prioritizer's comparison is total and transitive, its
ties are broken all the way down to the order number (two comparable-both-
ways orders have identical sort keys, so with unique order numbers the
ordering is a total order), and when the prioritized sequence is greedily
assigned on a shared first-available machine, an urgent order A is always
given a start time no later than a non-urgent order B. -/
theorem orderPrioritizer_urgent_first :
    (∀ a b : PendingOrder, priorityLE a b = true ∨ priorityLE b a = true) ∧
    (∀ a b c : PendingOrder,
      priorityLE a b = true → priorityLE b c = true → priorityLE a c = true) ∧
    (∀ a b : PendingOrder,
      priorityLE a b = true → priorityLE b a = true → sortKey a = sortKey b) ∧
    (∀ (rate : Nat) (m : MachineClock) (l : List PendingOrder) (A B : PendingOrder)
        (sA eA sB eB : Nat),
      (A, sA, eA) ∈ runGreedy rate m (prioritizeOrders l) →
      (B, sB, eB) ∈ runGreedy rate m (prioritizeOrders l) →
      A.isUrgent = true → B.isUrgent = false → sA ≤ sB) := by
  refine ⟨priorityLE_total, priorityLE_trans, priorityLE_antisymm, ?_⟩
  intro rate m l A B sA eA sB eB hA hB hu hn
  have hsorted : (prioritizeOrders l).Pairwise priRel := prioritizeOrders_pairwise l
  have hmap : (runGreedy rate m (prioritizeOrders l)).map Prod.fst = prioritizeOrders l :=
    runGreedy_map_fst (prioritizeOrders l) rate m
  rw [← hmap] at hsorted
  have hfst : (runGreedy rate m (prioritizeOrders l)).Pairwise
      (fun p q => priRel p.1 q.1) := List.pairwise_map.mp hsorted
  have hstarts := runGreedy_starts_pairwise (prioritizeOrders l) rate m
  have hboth := hfst.and hstarts
  have hget := List.pairwise_iff_get.mp hboth
  obtain ⟨i, hi⟩ := List.get_of_mem hA
  obtain ⟨j, hj⟩ := List.get_of_mem hB
  rcases lt_trichotomy i j with hij | hij | hij
  · have h := hget i j hij
    rw [hi, hj] at h
    exact h.2
  · rw [hij, hj] at hi
    have : A = B := (congrArg Prod.fst hi).symm
    rw [this, hn] at hu
    exact absurd hu (by simp)
  · have h := hget j i hij
    rw [hi, hj] at h
    have hfalse := priorityLE_false_of_urgent hu hn
    have : priorityLE B A = true := h.1
    rw [hfalse] at this
    exact absurd this (by simp)

/-- C1 witness: on a concrete two-order backlog, the urgent order number 2
is prioritized ahead of the non-urgent order number 1 and starts at 08:00,
before the non-urgent order's 10:00. -/
theorem orderPrioritizer_urgent_first_witness :
    ((urgentOrderA, 480, 600) ∈
        runGreedy 50 clock0 (prioritizeOrders [normalOrderB, urgentOrderA]) ∧
      (normalOrderB, 600, 720) ∈
        runGreedy 50 clock0 (prioritizeOrders [normalOrderB, urgentOrderA]) ∧
      urgentOrderA.isUrgent = true ∧ normalOrderB.isUrgent = false) ∧
    (480 : Nat) ≤ 600 :=
  ⟨⟨by decide, by decide, rfl, rfl⟩,
    orderPrioritizer_urgent_first.2.2.2 50 clock0 [normalOrderB, urgentOrderA]
      urgentOrderA normalOrderB 480 600 600 720 (by decide) (by decide) rfl rfl⟩

/-- C2 counterexample: a four-day server list (fewer than 7 days) is
truncated to its first three days, so the fourth returned day — here one
with zero scheduled quantity — is elided from the series, contrary to the
claim that all returned days are shown. -/
theorem weeklySummary_truncation_counterexample :
    sampleWeek4.length = 4 ∧ sampleWeek4.length < 7 ∧
    wday "2025-01-04" 0 ∈ sampleWeek4 ∧
    wday "2025-01-04" 0 ∉ displayedWeeklySummary sampleWeek4 ∧
    (displayedWeeklySummary sampleWeek4).length = 3 := by decide

/-- C2 (amended): the series shown is always a prefix of the server's
list — the first 7 days when at least 7 are returned, all days when at
most 3 are returned, but only the first 3 days when the server returns 4
to 6 — and within that prefix no day is elided on account of its value
(every displayed day is a day of the server list). -/
theorem weeklySummary_display_characterization :
    ∀ list : List WeeklyDay,
      (7 ≤ list.length → displayedWeeklySummary list = list.take 7) ∧
      (list.length ≤ 3 → displayedWeeklySummary list = list) ∧
      (3 < list.length → list.length < 7 → displayedWeeklySummary list = list.take 3) ∧
      (∀ d ∈ displayedWeeklySummary list, d ∈ list) := by
  intro list
  refine ⟨?_, ?_, ?_, ?_⟩
  · intro h
    unfold displayedWeeklySummary
    rw [if_neg (by omega)]
  · intro h
    unfold displayedWeeklySummary
    rw [if_pos (by omega), Nat.min_eq_left h, List.take_length]
  · intro h3 h7
    unfold displayedWeeklySummary
    rw [if_pos h7, Nat.min_eq_right (le_of_lt h3)]
  · intro d hd
    unfold displayedWeeklySummary at hd
    split_ifs at hd <;> exact List.take_subset _ _ hd

/-- C2 witness: a two-day list is displayed in full. -/
theorem weeklySummary_display_characterization_witness :
    sampleWeek2.length ≤ 3 ∧ displayedWeeklySummary sampleWeek2 = sampleWeek2 :=
  ⟨by decide, (weeklySummary_display_characterization sampleWeek2).2.1 (by decide)⟩

/-- C3: the operator-facing status action requests `in_progress` on any
entry that is not in progress, requests `completed` exactly on an
`in_progress` entry, offers no action on a `completed` entry, and in
particular never issues a completed request from a pending entry — so the
only producible transition sequence is pending, then in progress, then
completed. -/
theorem lifecycleActions_monotone :
    statusAction none = some "in_progress" ∧
    statusAction (some "pending") = some "in_progress" ∧
    statusAction (some "in_progress") = some "completed" ∧
    statusAction (some "completed") = none ∧
    (∀ s : Option String, statusAction s = some "completed" → s = some "in_progress") := by
  refine ⟨by decide, by decide, by decide, by decide, ?_⟩
  intro s h
  unfold statusAction at h
  split_ifs at h with h1 h2
  · exact h1
  · exfalso
    have h3 : requestedStatus s = "completed" := Option.some.inj h
    unfold requestedStatus at h3
    rw [if_neg h1] at h3
    exact absurd h3 (by decide)

/-- C3 witness: the action on an in-progress entry requests completion. -/
theorem lifecycleActions_monotone_witness :
    statusAction (some "in_progress") = some "completed" ∧
    (some "in_progress" : Option String) = some "in_progress" :=
  ⟨by decide, lifecycleActions_monotone.2.2.2.2 (some "in_progress") (by decide)⟩

/-- C4 counterexample: the equipment-creation handler accepts and posts a
record with `capacity_per_hour = 0` and a shift window ending before it
starts, violating the claimed machine invariant. -/
theorem equipmentCreation_counterexample :
    handleAddEquipment invalidEquipment = (some invalidEquipment, ToastKind.success) ∧
    invalidEquipment.capacity_per_hour ≤ 0 ∧
    invalidEquipment.shift_start = "18:00" ∧ invalidEquipment.shift_end = "08:00" := by decide

/-- C4 (amended): the creation operation validates only that the machine
id is non-empty and the tonnage positive; a record passing that check is
posted to the server unchanged (in particular with whatever capacity and
shift window it carries), and otherwise nothing is sent and an error is
reported. -/
theorem equipmentCreation_guard :
    ∀ f : NewEquipmentForm,
      ((handleAddEquipment f).1 = some f ↔ f.machine_id ≠ "" ∧ 0 < f.tonnage) ∧
      ((handleAddEquipment f).1 = some f ∨ handleAddEquipment f = (none, ToastKind.error)) := by
  intro f
  unfold handleAddEquipment
  split_ifs with h
  · refine ⟨⟨fun hx => absurd hx (by simp), fun hc => ?_⟩, Or.inr rfl⟩
    rcases h with h1 | h1
    · exact absurd h1 hc.1
    · omega
  · push_neg at h
    exact ⟨⟨fun _ => ⟨h.1, by omega⟩, fun _ => rfl⟩, Or.inl rfl⟩

/-- C5 counterexample: a schedule row starting at 08:15 with a 15-minute
duration converts to a Gantt task with start 8, end 9, duration 0, so
end minus start is 1 while duration is 0. -/
theorem ganttDuration_counterexample :
    (convertScheduleForGantt ganttSample 0).stop - (convertScheduleForGantt ganttSample 0).start = 1 ∧
    (convertScheduleForGantt ganttSample 0).duration = 0 := by
  norm_num [convertScheduleForGantt, jsRound, startHoursQ, durationHoursQ, ganttSample]

/-- C5 (amended): the converted task's end minus start differs from its
duration by at most one hour (the three fields are rounded independently),
and the identity end minus start equals duration does hold exactly
whenever the entry starts on the hour. -/
theorem ganttDuration_within_one :
    ∀ (b : BackendSchedule) (index : Nat),
      ((convertScheduleForGantt b index).stop - (convertScheduleForGantt b index).start -
          (convertScheduleForGantt b index).duration ≤ 1 ∧
        -1 ≤ (convertScheduleForGantt b index).stop - (convertScheduleForGantt b index).start -
          (convertScheduleForGantt b index).duration) ∧
      (b.start_time.minutes = 0 →
        (convertScheduleForGantt b index).stop - (convertScheduleForGantt b index).start =
          (convertScheduleForGantt b index).duration) := by
  intro b index
  simp only [convertScheduleForGantt]
  constructor
  · have h1 := jsRound_le (startHoursQ b)
    have h2 := lt_jsRound (startHoursQ b)
    have h3 := jsRound_le (durationHoursQ b)
    have h4 := lt_jsRound (durationHoursQ b)
    have h5 := jsRound_le (startHoursQ b + durationHoursQ b)
    have h6 := lt_jsRound (startHoursQ b + durationHoursQ b)
    constructor
    · have hq : ((jsRound (startHoursQ b + durationHoursQ b) - jsRound (startHoursQ b) -
          jsRound (durationHoursQ b) : Int) : Rat) < 2 := by push_cast; linarith
      have hz : (jsRound (startHoursQ b + durationHoursQ b) - jsRound (startHoursQ b) -
          jsRound (durationHoursQ b) : Int) < 2 := by exact_mod_cast hq
      omega
    · have hq : (-2 : Rat) < ((jsRound (startHoursQ b + durationHoursQ b) - jsRound (startHoursQ b) -
          jsRound (durationHoursQ b) : Int) : Rat) := by push_cast; linarith
      have hz : (-2 : Int) < jsRound (startHoursQ b + durationHoursQ b) - jsRound (startHoursQ b) -
          jsRound (durationHoursQ b) := by exact_mod_cast hq
      omega
  · intro hm
    have ha : startHoursQ b = ((b.start_time.hours : Int) : Rat) := by
      simp only [startHoursQ, hm]
      push_cast
      ring
    rw [ha, jsRound_intCast_add, jsRound_intCast]
    ring

/-- C5 witness: for an entry starting exactly at 09:00 the rounded fields
satisfy the identity. -/
theorem ganttDuration_within_one_witness :
    ganttSampleOnHour.start_time.minutes = 0 ∧
    (convertScheduleForGantt ganttSampleOnHour 1).stop -
        (convertScheduleForGantt ganttSampleOnHour 1).start =
      (convertScheduleForGantt ganttSampleOnHour 1).duration :=
  ⟨rfl, (ganttDuration_within_one ganttSampleOnHour 1).2 rfl⟩

/-- C6: the urgent-order intake posts a create request exactly when the
order number and product code are non-empty and the quantity is positive;
on any violating input it reports an error and sends nothing. -/
theorem urgentIntake_guard :
    ∀ form : UrgentOrderForm,
      (form.order_number ≠ "" ∧ form.product_code ≠ "" ∧ 0 < form.quantity →
        handleAddUrgentOrder form = (some (orderAPI_urgent form), ToastKind.success)) ∧
      (form.order_number = "" ∨ form.product_code = "" ∨ form.quantity ≤ 0 →
        handleAddUrgentOrder form = (none, ToastKind.error)) := by
  intro form
  unfold handleAddUrgentOrder
  split_ifs with h
  · refine ⟨fun hc => ?_, fun _ => rfl⟩
    rcases h with h1 | h1 | h1
    · exact absurd h1 hc.1
    · exact absurd h1 hc.2.1
    · omega
  · exact ⟨fun _ => rfl, fun hc => absurd hc h⟩

/-- C6 witness: a fully filled-in form is posted with success. -/
theorem urgentIntake_guard_witness :
    (validUrgentForm.order_number ≠ "" ∧ validUrgentForm.product_code ≠ "" ∧
      0 < validUrgentForm.quantity) ∧
    handleAddUrgentOrder validUrgentForm = (some (orderAPI_urgent validUrgentForm), ToastKind.success) :=
  ⟨by decide, (urgentIntake_guard validUrgentForm).1 (by decide)⟩

/-- C7 counterexample: an order whose status is `scheduled` is kept by the
backlog filter, so the displayed scheduling backlog is not restricted to
`pending` records. -/
theorem backlogFilter_counterexample :
    scheduledOrder ∈ fetchOrdersFiltered [scheduledOrder] ∧
    scheduledOrder.status ≠ "pending" := by decide

/-- C7 (amended): the backlog list shown for scheduling is exactly the
order records whose status is `pending` or `scheduled`. -/
theorem backlogFilter_characterization :
    ∀ (orders : List BackendOrder) (o : BackendOrder),
      o ∈ fetchOrdersFiltered orders ↔
        o ∈ orders ∧ (o.status = "pending" ∨ o.status = "scheduled") := by
  intro orders o
  simp [fetchOrdersFiltered, List.mem_filter]

/-- C8: a response with no schedule entries is handled with an info toast
(not an error) and the page falls back to all-zero metrics, and a response
without a metrics object likewise renders all-zero metrics. -/
theorem emptySchedule_zeroMetrics :
    ∀ resp : ScheduleResponse,
      (resp.schedule = none ∨ resp.schedule = some [] →
        (fetchScheduleState resp).2 = ToastKind.info ∧
        displayedMetrics (fetchScheduleState resp).1 = zeroMetrics) ∧
      (resp.metrics = none → displayedMetrics (fetchScheduleState resp).1 = zeroMetrics) := by
  intro resp
  constructor
  · rintro (h | h) <;> simp [fetchScheduleState, h, displayedMetrics]
  · intro h
    rcases hs : resp.schedule with _ | l
    · simp [fetchScheduleState, hs, displayedMetrics]
    · cases l with
      | nil => simp [fetchScheduleState, hs, displayedMetrics]
      | cons x xs => simp [fetchScheduleState, hs, displayedMetrics, h]

/-- C8 witness: an empty-list response yields the info toast and zero
metrics. -/
theorem emptySchedule_zeroMetrics_witness :
    (emptyScheduleResponse.schedule = none ∨ emptyScheduleResponse.schedule = some []) ∧
    (fetchScheduleState emptyScheduleResponse).2 = ToastKind.info ∧
    displayedMetrics (fetchScheduleState emptyScheduleResponse).1 = zeroMetrics :=
  ⟨Or.inr rfl, (emptySchedule_zeroMetrics emptyScheduleResponse).1 (Or.inr rfl)⟩

/-- C9: every payload posted by the urgent-order API operation carries
`is_urgent = true` and `priority = 1`, whatever the caller supplied. -/
theorem urgentAPI_forces_flag :
    ∀ data : UrgentOrderForm,
      (orderAPI_urgent data).is_urgent = true ∧ (orderAPI_urgent data).priority = 1 :=
  fun _ => ⟨rfl, rfl⟩

/-- C10: the late-rate KPI is the unguarded expression
`(total_orders - on_time_orders) / total_orders * 100`; for consistent
metrics (on-time count between 0 and the total) it is a finite number
exactly when `total_orders > 0`, and it is `NaN` when `total_orders = 0` —
which is the metrics object rendered whenever the response carries a
non-empty schedule list together with such metrics. -/
theorem lateRate_nan_when_no_orders :
    ∀ m : ScheduleMetrics, 0 ≤ m.on_time_orders → m.on_time_orders ≤ m.total_orders →
      (lateRatePct m = jsMul (jsDiv (m.total_orders - m.on_time_orders) m.total_orders) 100) ∧
      (m.total_orders = 0 → lateRatePct m = JSNum.nan) ∧
      (0 < m.total_orders →
        lateRatePct m = JSNum.num ((m.total_orders - m.on_time_orders) / m.total_orders * 100)) ∧
      (∀ (resp : ScheduleResponse) (x : ScheduleItem) (xs : List ScheduleItem),
        resp.schedule = some (x :: xs) → resp.metrics = some m →
        displayedMetrics (fetchScheduleState resp).1 = m) := by
  intro m h0 h1
  refine ⟨rfl, ?_, ?_, ?_⟩
  · intro h
    have hz : m.on_time_orders = 0 := le_antisymm (h ▸ h1) h0
    simp [lateRatePct, jsDiv, jsMul, h, hz]
  · intro h
    have hne : m.total_orders ≠ 0 := ne_of_gt h
    simp [lateRatePct, jsDiv, jsMul, hne]
  · intro resp x xs hs hm
    simp [fetchScheduleState, hs, displayedMetrics, hm]

/-- C10 witness: all-zero metrics (as served with a non-empty schedule in
`oneItemZeroResponse`) render a `NaN` late rate. -/
theorem lateRate_nan_witness :
    (0 ≤ zeroMetrics.on_time_orders ∧ zeroMetrics.on_time_orders ≤ zeroMetrics.total_orders ∧
      zeroMetrics.total_orders = 0 ∧ oneItemZeroResponse.metrics = some zeroMetrics) ∧
    lateRatePct zeroMetrics = JSNum.nan :=
  ⟨⟨le_refl 0, le_refl 0, rfl, rfl⟩,
    (lateRate_nan_when_no_orders zeroMetrics (le_refl 0) (le_refl 0)).2.1 rfl⟩

end SmartFlow
